import Mathlib

/-!
# Verification of the VOZ forum-scraper pipeline

Shallow embedding of the three source files of the `voz-data-scaper`
repository (`VOZ_neww/VOZ_neww/spiders/demospider.py`,
`VOZ_neww/VOZ_neww/pipelines.py`, `VOZ_neww/main.py`) together with
proofs and refutations of the specification claims about them.

External capabilities (the `underthesea` sentiment classifier,
`datetime.fromisoformat`) are modelled as function parameters; Python
standard-library string operations (`str.split`, `str.strip`,
`str.replace`, `urllib.parse.urlparse` path extraction, `hashlib.md5`)
are embedded as executable Lean functions following their documented
algorithms.
-/

namespace Voz

open List

/-! ## Sentiment Tagging Stage (`pipelines.py`, `FetchMessagePipeline`) -/

/-- The count dictionary built by `FetchMessagePipeline.analyze_sentiment`
(`{'positive': _, 'negative': _, 'neutral': _}`). -/
structure SentimentCounts where
  positive : Nat
  negative : Nat
  neutral : Nat
deriving Repr, DecidableEq

/-- Outcome of one call to the external `underthesea.sentiment` classifier:
`Except.ok label` when it returns a label, `Except.error ()` when it raises
an exception (or times out). The classifier is external, so it enters the
embedding as a function parameter. -/
abbrev Classifier := String → Except Unit String

/-- Embedding of `FetchMessagePipeline.analyze_sentiment` (pipelines.py
lines 11–36).  The `try` body initializes all three counters to `0` and
increments exactly one according to the returned label (`'positive'`,
`'negative'`, else neutral); the `except` branch returns the literal
dictionary `{'positive': 0, 'negative': 0, 'neutral': 0}`. -/
def analyze_sentiment (classifier : Classifier) (text : String) : SentimentCounts :=
  match classifier text with
  | Except.error _ => { positive := 0, negative := 0, neutral := 0 }
  | Except.ok sentiment_label =>
      if sentiment_label = "positive" then { positive := 1, negative := 0, neutral := 0 }
      else if sentiment_label = "negative" then { positive := 0, negative := 1, neutral := 0 }
      else { positive := 0, negative := 0, neutral := 1 }

/-- An item as it leaves the Sentiment Tagging Stage: the scraped fields
together with the three counts and the processing timestamp added by
`FetchMessagePipeline.process_item`. -/
structure TaggedItem where
  message_content : String
  positive : Nat
  negative : Nat
  neutral : Nat
  processed_at : String
deriving Repr, DecidableEq

/-- Embedding of `FetchMessagePipeline.process_item` (pipelines.py lines
38–58): analyzes the sentiment of `item['message_content']` and updates the
item with the three counts and `processed_at = datetime.now().isoformat()`
(the wall clock enters as the `now` parameter). The function is total: both
the classifier fault (caught inside `analyze_sentiment`) and any other
fault (caught by the outer `try`) still return an item, so ingestion
continues with the next item. -/
def fetch_process_item (classifier : Classifier) (now : String)
    (message_content : String) : TaggedItem :=
  let sentiment_counts := analyze_sentiment classifier message_content
  { message_content := message_content
    positive := sentiment_counts.positive
    negative := sentiment_counts.negative
    neutral := sentiment_counts.neutral
    processed_at := now }

/-- Running the Sentiment Tagging Stage over a whole crawl: every scraped
item is processed in order; the stage never drops or aborts. -/
def fetch_process_all (classifier : Classifier) (now : String)
    (items : List String) : List TaggedItem :=
  items.map (fetch_process_item classifier now)

/-- A classifier that raises on every input, for the failure-path claims. -/
def failingClassifier : Classifier := fun _ => Except.error ()

/-! ## Claims C1 and C2 -/

/-- C1 (code_bug evidence). The spec claims that a classifier failure is
mapped to the all-neutral vector `{positive := 0, negative := 0, neutral := 1}`,
but the `except` branch of `analyze_sentiment` returns the all-zero
dictionary `{positive := 0, negative := 0, neutral := 0}`; processing of
subsequent items does continue (the stage maps every item of the list and
the output has one entry per input). -/
theorem analyze_sentiment_classifier_failure_all_zero :
    analyze_sentiment failingClassifier "any text"
      = { positive := 0, negative := 0, neutral := 0 } ∧
    analyze_sentiment failingClassifier "any text"
      ≠ { positive := 0, negative := 0, neutral := 1 } ∧
    (fetch_process_all failingClassifier "2024-01-01T00:00:00"
        ["first", "second", "third"]).length = 3 := by
  refine ⟨rfl, ?_, rfl⟩
  decide

/-- C2 (code_bug evidence). The spec claims
`positive_count + negative_count + neutral_count = 1` for every item
produced by the Sentiment Tagging Stage, for every classifier outcome
including failure; but on the classifier-failure path
`FetchMessagePipeline.process_item` produces an item whose three counts
sum to `0`. On every success path the sum is `1`. -/
theorem process_item_classifier_failure_counts_sum_zero :
    (let it := fetch_process_item failingClassifier "2024-01-01T00:00:00" "bad text"
     it.positive + it.negative + it.neutral = 0) ∧
    (∀ classifier : Classifier, ∀ now text label,
      classifier text = Except.ok label →
      (let it := fetch_process_item classifier now text
       it.positive + it.negative + it.neutral = 1)) := by
  constructor
  · rfl
  · intro classifier now text label h
    simp only [fetch_process_item, analyze_sentiment, h]
    by_cases h1 : label = "positive" <;> by_cases h2 : label = "negative" <;>
      simp [h1, h2]

/-- C2 witness: a concrete classifier that succeeds with label
`"positive"`, on which the success half of the theorem yields sum `1`. -/
theorem process_item_counts_witness :
    (let it := fetch_process_item (fun _ => Except.ok "positive")
       "2024-01-01T00:00:00" "good text"
     it.positive + it.negative + it.neutral = 1) :=
  process_item_classifier_failure_counts_sum_zero.2
    (fun _ => Except.ok "positive") "2024-01-01T00:00:00" "good text" "positive" rfl

/-- Helper fact (not claim-named): for every classifier success the counts
are one-hot. -/
theorem analyze_sentiment_success_one_hot (classifier : Classifier)
    (text label : String) (h : classifier text = Except.ok label) :
    analyze_sentiment classifier text = { positive := 1, negative := 0, neutral := 0 } ∨
    analyze_sentiment classifier text = { positive := 0, negative := 1, neutral := 0 } ∨
    analyze_sentiment classifier text = { positive := 0, negative := 0, neutral := 1 } := by
  simp only [analyze_sentiment, h]
  by_cases h1 : label = "positive" <;> by_cases h2 : label = "negative" <;> simp [h1, h2]

/-! ## Python string primitives used by the spider

`str.split(sep)`, `str.strip()` and `str.replace(a, b)` from the Python
standard library, embedded over `List Char` so that they evaluate inside
the kernel. -/

/-- Embedding of Python `s.split(sep)` for a one-character separator:
splits on every occurrence; the result is never empty (`"".split('.')`
is `[""]`). -/
def pySplit (s : String) (sep : Char) : List String :=
  (s.data.splitOn sep).map String.mk

/-- Whitespace test used by the embedding of Python `str.strip()`. -/
def isSpaceChar (c : Char) : Bool :=
  c = ' ' || c = '\t' || c = '\n' || c = '\r'

/-- Embedding of Python `s.strip()`: removes leading and trailing
whitespace. -/
def pyStrip (s : String) : String :=
  String.mk (((s.data.dropWhile isSpaceChar).reverse.dropWhile isSpaceChar).reverse)

/-- Embedding of Python `s.replace('Z', '+00:00')` as used in
`demospider.py` line 54: every occurrence of the single character `'Z'`
is replaced by the string `"+00:00"`. -/
def pyReplaceZ (s : String) : String :=
  String.mk (s.data.flatMap (fun c => if c = 'Z' then "+00:00".data else [c]))

/-- UTF-8 encoding of one character (Python `str.encode()` on each code
point), byte values as `Nat`. -/
def utf8Bytes (c : Char) : List Nat :=
  let n := c.toNat
  if n < 128 then [n]
  else if n < 2048 then [192 + n / 64, 128 + n % 64]
  else if n < 65536 then [224 + n / 4096, 128 + n / 64 % 64, 128 + n % 64]
  else [240 + n / 262144, 128 + n / 4096 % 64, 128 + n / 64 % 64, 128 + n % 64]

/-- Embedding of Python `s.encode()`: the UTF-8 byte sequence of `s`. -/
def strBytes (s : String) : List Nat :=
  (s.data.map utf8Bytes).flatten

/-! ## MD5 (`hashlib.md5(...).hexdigest()` embedding, RFC 1321) -/

/-- `2^32`, the word modulus of MD5. -/
def w32 : Nat := 4294967296

/-- 32-bit left rotation. -/
def rotl32 (x n : Nat) : Nat := ((x <<< n) ||| (x >>> (32 - n))) % w32

/-- The 64 MD5 sine-derived constants `K[i] = floor(2^32 * |sin(i+1)|)`. -/
def md5K : List Nat :=
  [0xd76aa478, 0xe8c7b756, 0x242070db, 0xc1bdceee,
   0xf57c0faf, 0x4787c62a, 0xa8304613, 0xfd469501,
   0x698098d8, 0x8b44f7af, 0xffff5bb1, 0x895cd7be,
   0x6b901122, 0xfd987193, 0xa679438e, 0x49b40821,
   0xf61e2562, 0xc040b340, 0x265e5a51, 0xe9b6c7aa,
   0xd62f105d, 0x02441453, 0xd8a1e681, 0xe7d3fbc8,
   0x21e1cde6, 0xc33707d6, 0xf4d50d87, 0x455a14ed,
   0xa9e3e905, 0xfcefa3f8, 0x676f02d9, 0x8d2a4c8a,
   0xfffa3942, 0x8771f681, 0x6d9d6122, 0xfde5380c,
   0xa4beea44, 0x4bdecfa9, 0xf6bb4b60, 0xbebfbc70,
   0x289b7ec6, 0xeaa127fa, 0xd4ef3085, 0x04881d05,
   0xd9d4d039, 0xe6db99e5, 0x1fa27cf8, 0xc4ac5665,
   0xf4292244, 0x432aff97, 0xab9423a7, 0xfc93a039,
   0x655b59c3, 0x8f0ccc92, 0xffeff47d, 0x85845dd1,
   0x6fa87e4f, 0xfe2ce6e0, 0xa3014314, 0x4e0811a1,
   0xf7537e82, 0xbd3af235, 0x2ad7d2bb, 0xeb86d391]

/-- The 64 MD5 per-round left-rotation amounts. -/
def md5S : List Nat :=
  [7, 12, 17, 22, 7, 12, 17, 22, 7, 12, 17, 22, 7, 12, 17, 22,
   5, 9, 14, 20, 5, 9, 14, 20, 5, 9, 14, 20, 5, 9, 14, 20,
   4, 11, 16, 23, 4, 11, 16, 23, 4, 11, 16, 23, 4, 11, 16, 23,
   6, 10, 15, 21, 6, 10, 15, 21, 6, 10, 15, 21, 6, 10, 15, 21]

/-- Round function F (rounds 0–15): `(B ∧ C) ∨ (¬B ∧ D)`. -/
def md5F (b c d : Nat) : Nat := (b &&& c) ||| ((b ^^^ 4294967295) &&& d)

/-- Round function G (rounds 16–31): `(D ∧ B) ∨ (¬D ∧ C)`. -/
def md5G (b c d : Nat) : Nat := (d &&& b) ||| ((d ^^^ 4294967295) &&& c)

/-- Round function H (rounds 32–47): `B ⊕ C ⊕ D`. -/
def md5H (b c d : Nat) : Nat := b ^^^ c ^^^ d

/-- Round function I (rounds 48–63): `C ⊕ (B ∨ ¬D)`. -/
def md5I (b c d : Nat) : Nat := c ^^^ (b ||| (d ^^^ 4294967295))

/-- The four 32-bit MD5 chaining words. -/
structure MD5State where
  a : Nat
  b : Nat
  c : Nat
  d : Nat
deriving Repr, DecidableEq

/-- One of the 64 MD5 operations on the current chunk's words `M`. -/
def md5Round (M : List Nat) (st : MD5State) (i : Nat) : MD5State :=
  let fg : Nat × Nat :=
    if i < 16 then (md5F st.b st.c st.d, i)
    else if i < 32 then (md5G st.b st.c st.d, (5 * i + 1) % 16)
    else if i < 48 then (md5H st.b st.c st.d, (3 * i + 5) % 16)
    else (md5I st.b st.c st.d, (7 * i) % 16)
  let f := (fg.1 + st.a + md5K.getD i 0 + M.getD fg.2 0) % w32
  { a := st.d, b := (st.b + rotl32 f (md5S.getD i 0)) % w32, c := st.b, d := st.c }

/-- Groups a 64-byte chunk into sixteen 32-bit little-endian words. -/
def le32words : List Nat → List Nat
  | b0 :: b1 :: b2 :: b3 :: rest =>
      (b0 + 256 * b1 + 65536 * b2 + 16777216 * b3) :: le32words rest
  | _ => []

/-- Runs the 64 MD5 operations on one 512-bit chunk and adds the result to
the chaining state (all mod `2^32`). -/
def md5ProcessChunk (st : MD5State) (chunk : List Nat) : MD5State :=
  let M := le32words chunk
  let r := (List.range 64).foldl (md5Round M) st
  { a := (st.a + r.a) % w32, b := (st.b + r.b) % w32,
    c := (st.c + r.c) % w32, d := (st.d + r.d) % w32 }

/-- The eight little-endian bytes of a 64-bit value. -/
def le64bytes (n : Nat) : List Nat :=
  [n % 256, n / 256 % 256, n / 65536 % 256, n / 16777216 % 256,
   n / 4294967296 % 256, n / 1099511627776 % 256,
   n / 281474976710656 % 256, n / 72057594037927936 % 256]

/-- The four little-endian bytes of a 32-bit value. -/
def le32bytes (n : Nat) : List Nat :=
  [n % 256, n / 256 % 256, n / 65536 % 256, n / 16777216 % 256]

/-- MD5 padding: append `0x80`, zero-fill to 56 mod 64, then the original
bit length as a 64-bit little-endian number. -/
def md5Pad (msg : List Nat) : List Nat :=
  let len := msg.length
  let z := (119 - len % 64) % 64
  msg ++ [128] ++ List.replicate z 0 ++ le64bytes (8 * len % 18446744073709551616)

/-- Splits a byte list into 64-byte chunks. -/
def chunks64 : List Nat → List (List Nat)
  | [] => []
  | x :: rest => ((x :: rest).take 64) :: chunks64 ((x :: rest).drop 64)
termination_by l => l.length
decreasing_by simp [List.length_drop]; omega

/-- The 16-byte MD5 digest of a byte sequence. -/
def md5bytes (msg : List Nat) : List Nat :=
  let st0 : MD5State :=
    { a := 0x67452301, b := 0xefcdab89, c := 0x98badcfe, d := 0x10325476 }
  let final := (chunks64 (md5Pad msg)).foldl md5ProcessChunk st0
  le32bytes final.a ++ le32bytes final.b ++ le32bytes final.c ++ le32bytes final.d

/-- A lowercase hexadecimal digit. -/
def hexDigit (n : Nat) : Char :=
  if n < 10 then Char.ofNat (48 + n) else Char.ofNat (87 + n)

/-- Two lowercase hex characters of one byte. -/
def byteHex (b : Nat) : List Char :=
  [hexDigit (b / 16), hexDigit (b % 16)]

/-- Embedding of Python `hashlib.md5(s.encode()).hexdigest()`. -/
def md5hex (s : String) : String :=
  String.mk ((md5bytes (strBytes s)).flatMap byteHex)

/-! ## ID Generator (`demospider.py`, `extract_thread_id` / `generate_item_id`) -/

/-- Model of `urllib.parse.urlparse(url).path` for the URL shapes the
spider handles: the fragment (after the first `'#'`), the scheme (the part
before a `':'` that occurs before any `'/'`), the network location (after
a leading `"//"`, up to the next `'/'` or `'?'`) and the query (after the
first `'?'`) are removed; what remains is the path. -/
def urlPath (url : String) : String :=
  let l := url.data.takeWhile (fun c => c ≠ '#')
  let pre := l.takeWhile (fun c => c ≠ ':' && c ≠ '/')
  let afterScheme := if l.get? pre.length = some ':' then l.drop (pre.length + 1) else l
  let afterNetloc :=
    match afterScheme with
    | '/' :: '/' :: rest => rest.dropWhile (fun c => c ≠ '/' && c ≠ '?')
    | _ => afterScheme
  String.mk (afterNetloc.takeWhile (fun c => c ≠ '?'))

/-- Python truthiness of an optional string: `None` and `""` are falsy. -/
def truthy : Option String → Bool
  | none => false
  | some s => !s.isEmpty

/-- Embedding of `DemospiderSpider.extract_thread_id` (demospider.py lines
19–25): splits the URL's path on `'.'`; if that yields more than one part,
the last part is the thread ID, otherwise there is none. -/
def extract_thread_id (url : String) : Option String :=
  let path_parts := pySplit (urlPath url) '.'
  if path_parts.length > 1 then path_parts.getLast? else none

/-- Embedding of `DemospiderSpider.generate_item_id` (demospider.py lines
27–35): when both the extracted thread ID and the timestamp are truthy,
the item ID is the hex MD5 digest of `f"{thread_id}_{timestamp}"`;
otherwise it is `None`. -/
def generate_item_id (thread_url : String) (timestamp : Option String) : Option String :=
  let thread_id := extract_thread_id thread_url
  if truthy thread_id && truthy timestamp then
    some (md5hex (thread_id.getD "" ++ "_" ++ timestamp.getD ""))
  else none

/-! ## Claims C6 and C10 -/

/-- C6. The ID Generator is a pure deterministic function: whenever the
thread identifier (the last dot-delimited segment of the URL's path) and
the post timestamp are both present (non-null, non-empty), it returns the
hex-encoded 128-bit MD5 digest of `threadId ++ "_" ++ timestamp`; it
returns `none` when either is absent; and identical inputs always give
identical outputs. -/
theorem generate_item_id_spec :
    (∀ url ts tid s, extract_thread_id url = some tid → tid ≠ "" →
      ts = some s → s ≠ "" →
      generate_item_id url ts = some (md5hex (tid ++ "_" ++ s))) ∧
    (∀ url ts, extract_thread_id url = none ∨ ts = none →
      generate_item_id url ts = none) ∧
    (∀ url ts, generate_item_id url ts = generate_item_id url ts) := by
  refine ⟨?_, ?_, fun _ _ => rfl⟩
  · intro url ts tid s htid htid0 hts hs0
    simp only [generate_item_id, htid, hts, truthy, Option.getD_some]
    have h1 : tid.isEmpty = false := by
      rcases h : tid.isEmpty with _ | _
      · rfl
      · exact absurd ((String.isEmpty_iff tid).mp h) htid0
    have h2 : s.isEmpty = false := by
      rcases h : s.isEmpty with _ | _
      · rfl
      · exact absurd ((String.isEmpty_iff s).mp h) hs0
    simp [h1, h2]
  · intro url ts h
    rcases h with h | h <;> simp [generate_item_id, h, truthy]

/-- C6 witness: a concrete voz thread URL and timestamp. -/
theorem generate_item_id_spec_witness :
    generate_item_id "https://voz.vn/t/abc-def.123456/latest"
        (some "2024-01-01T10:00:00+00:00")
      = some (md5hex ("123456/latest" ++ "_" ++ "2024-01-01T10:00:00+00:00")) :=
  generate_item_id_spec.1 "https://voz.vn/t/abc-def.123456/latest"
    (some "2024-01-01T10:00:00+00:00") "123456/latest" "2024-01-01T10:00:00+00:00"
    (by decide) (by decide) rfl (by decide)

/-- C10. When the URL's path contains no `'.'` character, splitting it on
`'.'` yields a single part, so `extract_thread_id` returns `none` — and
`generate_item_id` returns `none` for that URL, whatever the timestamp. -/
theorem extract_thread_id_no_dot_none :
    ∀ url, '.' ∉ (urlPath url).data →
      (pySplit (urlPath url) '.').length = 1 ∧
      extract_thread_id url = none ∧
      ∀ ts, generate_item_id url ts = none := by
  intro url hdot
  have hsplit : (urlPath url).data.splitOn '.' = [(urlPath url).data] := by
    apply List.splitOnP_eq_single
    intro x hx
    simp only [beq_iff_eq]
    intro hxe
    exact hdot (hxe ▸ hx)
  have hlen : (pySplit (urlPath url) '.').length = 1 := by
    simp [pySplit, hsplit]
  have hext : extract_thread_id url = none := by
    simp [extract_thread_id, hlen]
  refine ⟨hlen, hext, fun ts => ?_⟩
  simp [generate_item_id, hext, truthy]

/-- C10 witness: the listing URL `https://voz.vn/whats-new` has the path
`/whats-new`, which contains no dot. -/
theorem extract_thread_id_no_dot_none_witness :
    extract_thread_id "https://voz.vn/whats-new" = none ∧
    generate_item_id "https://voz.vn/whats-new" (some "2024-01-01T10:00:00+00:00") = none := by
  have h := extract_thread_id_no_dot_none "https://voz.vn/whats-new" (by decide)
  exact ⟨h.2.1, h.2.2 (some "2024-01-01T10:00:00+00:00")⟩

/-! ## Thread Discovery & Ordering Engine (`demospider.py`, `parse`) -/

/-- One `div.structItem--thread` container on the listing page, reduced to
the three selector results `parse` reads from it: the `/latest` link, the
title text and the `datetime` attribute of the thread-start `<time>`. -/
structure ThreadContainer where
  latest_link : Option String
  thread_title : Option String
  thread_date_str : Option String
deriving Repr, DecidableEq

/-- The `thread_info` dictionary built for each discovered thread. -/
structure ThreadInfo where
  url : String
  thread_title : Option String
  thread_date : Option String
  timestamp : Option Nat
deriving Repr, DecidableEq

/-- Model of `datetime.fromisoformat`: datetimes are encoded as `Nat`
with `datetime.min` as `0`; `none` means the string is not a valid ISO
format and the call raises `ValueError`. The parser is external
(`datetime` standard library), so it enters the embedding as a parameter. -/
abbrev IsoParser := String → Option Nat

/-- The scheme-and-host prefix (`"https://voz.vn"`) of an absolute URL,
used by the `urljoin` model. -/
def urlOrigin (url : String) : List Char :=
  let l := url.data
  let pre := l.takeWhile (fun c => c ≠ ':' && c ≠ '/')
  match l.drop pre.length with
  | ':' :: '/' :: '/' :: rest =>
      pre ++ (':' :: '/' :: '/' :: rest.takeWhile (fun c => c ≠ '/' && c ≠ '?' && c ≠ '#'))
  | _ => []

/-- Model of `urllib.parse.urljoin(base, rel)` for the link shapes on the
listing page: an absolute `rel` (with a scheme) is returned unchanged, a
root-relative `rel` (leading `'/'`) is attached to the base's origin, and
any other `rel` replaces the last segment of the base's path. -/
def urljoin (base rel : String) : String :=
  let pre := rel.data.takeWhile (fun c => c ≠ ':' && c ≠ '/')
  if rel.data.get? pre.length = some ':' then rel
  else if rel.data.head? = some '/' then String.mk (urlOrigin base ++ rel.data)
  else String.mk ((base.data.reverse.dropWhile (fun c => c ≠ '/')).reverse ++ rel.data)

/-- Building one `thread_info` inside the `for thread in thread_containers`
loop (demospider.py lines 44–56): a container whose `/latest` link is
missing (or empty) is skipped; the timestamp is
`datetime.fromisoformat(thread_date_str.replace('Z', '+00:00'))` when the
date string is truthy and `None` otherwise; a truthy date string that
`fromisoformat` rejects raises `ValueError`, aborting discovery. -/
def buildThreadInfo (parseIso : IsoParser) (response_url : String)
    (c : ThreadContainer) : Except String (Option ThreadInfo) :=
  if truthy c.latest_link then
    let thread_url := urljoin response_url (c.latest_link.getD "")
    match c.thread_date_str with
    | none =>
        Except.ok (some { url := thread_url, thread_title := c.thread_title,
                          thread_date := none, timestamp := none })
    | some s =>
        if s.isEmpty then
          Except.ok (some { url := thread_url, thread_title := c.thread_title,
                            thread_date := some s, timestamp := none })
        else
          match parseIso (pyReplaceZ s) with
          | some t =>
              Except.ok (some { url := thread_url, thread_title := c.thread_title,
                                thread_date := some s, timestamp := some t })
          | none => Except.error "ValueError: Invalid isoformat string"
  else Except.ok none

/-- The `threads` list accumulated by the loop, in listing order; the first
container whose date string fails to parse aborts the whole loop. -/
def collectThreads (parseIso : IsoParser) (response_url : String) :
    List ThreadContainer → Except String (List ThreadInfo)
  | [] => Except.ok []
  | c :: rest => do
      let hd ← buildThreadInfo parseIso response_url c
      let tl ← collectThreads parseIso response_url rest
      match hd with
      | none => pure tl
      | some t => pure (t :: tl)

/-- The sort key of demospider.py line 60:
`x['timestamp'] if x['timestamp'] else datetime.min`, with `datetime.min`
encoded as `0`. -/
def tkey : Option Nat → Nat
  | none => 0
  | some t => t

/-- One step of a stable descending insertion: `x` is placed before the
first element with a strictly smaller key, hence after every earlier
element with an equal key. -/
def insertDesc (key : α → Nat) (x : α) : List α → List α
  | [] => [x]
  | y :: ys => if key y < key x then x :: y :: ys else y :: insertDesc key x ys

/-- Embedding of Python `sorted(l, key=..., reverse=True)`: a stable sort,
descending by key. -/
def sortDesc (key : α → Nat) (l : List α) : List α :=
  l.foldl (fun acc x => insertDesc key x acc) []

/-- Embedding of `DemospiderSpider.parse` (demospider.py lines 37–70): the
discovered threads sorted newest-first; one follow-up request per thread is
emitted in this order, carrying the `thread_info` as request context. -/
def spider_parse (parseIso : IsoParser) (response_url : String)
    (thread_containers : List ThreadContainer) : Except String (List ThreadInfo) := do
  let threads ← collectThreads parseIso response_url thread_containers
  pure (sortDesc (fun t => tkey t.timestamp) threads)

/-! ### Sorting lemmas -/

theorem insertDesc_perm (key : α → Nat) (x : α) (l : List α) :
    insertDesc key x l ~ x :: l := by
  induction l with
  | nil => rfl
  | cons y ys ih =>
      simp only [insertDesc]
      split
      · rfl
      · exact ((ih.cons y).trans (List.Perm.swap x y ys))

theorem insertDesc_pairwise (key : α → Nat) (x : α) (l : List α)
    (h : l.Pairwise (fun a b => key b ≤ key a)) :
    (insertDesc key x l).Pairwise (fun a b => key b ≤ key a) := by
  induction l with
  | nil => simp [insertDesc]
  | cons y ys ih =>
      rw [List.pairwise_cons] at h
      simp only [insertDesc]
      split
      · rename_i hlt
        rw [List.pairwise_cons]
        refine ⟨?_, List.pairwise_cons.mpr h⟩
        intro z hz
        rcases List.mem_cons.mp hz with rfl | hz
        · exact Nat.le_of_lt hlt
        · exact Nat.le_trans (h.1 z hz) (Nat.le_of_lt hlt)
      · rename_i hge
        rw [List.pairwise_cons]
        refine ⟨?_, ih h.2⟩
        intro z hz
        rcases List.mem_cons.mp ((insertDesc_perm key x ys).mem_iff.mp hz) with rfl | hz
        · exact Nat.le_of_not_lt hge
        · exact h.1 z hz

theorem sortDesc_perm (key : α → Nat) (l : List α) : sortDesc key l ~ l := by
  suffices h : ∀ acc : List α,
      (l.foldl (fun acc x => insertDesc key x acc) acc) ~ acc ++ l by
    simpa using h []
  induction l with
  | nil => intro acc; simp
  | cons x xs ih =>
      intro acc
      calc (xs.foldl (fun acc x => insertDesc key x acc) (insertDesc key x acc))
          ~ insertDesc key x acc ++ xs := ih (insertDesc key x acc)
        _ ~ (x :: acc) ++ xs := (insertDesc_perm key x acc).append_right xs
        _ ~ acc ++ x :: xs := List.perm_middle.symm

theorem sortDesc_pairwise (key : α → Nat) (l : List α) :
    (sortDesc key l).Pairwise (fun a b => key b ≤ key a) := by
  suffices h : ∀ acc : List α, acc.Pairwise (fun a b => key b ≤ key a) →
      (l.foldl (fun acc x => insertDesc key x acc) acc).Pairwise
        (fun a b => key b ≤ key a) by
    exact h [] (by simp)
  induction l with
  | nil => intro acc hacc; simpa using hacc
  | cons x xs ih =>
      intro acc hacc
      exact ih (insertDesc key x acc) (insertDesc_pairwise key x acc hacc)

/-! ### Claim C4 -/

/-- Holds of a container iff building its `thread_info` cannot raise: its
date string is absent, empty, or accepted by `fromisoformat` after the
`Z → +00:00` replacement. -/
def datesOk (parseIso : IsoParser) (c : ThreadContainer) : Bool :=
  match c.thread_date_str with
  | none => true
  | some s => s.isEmpty || (parseIso (pyReplaceZ s)).isSome

theorem buildThreadInfo_ok (parseIso : IsoParser) (url : String)
    (c : ThreadContainer) (h : datesOk parseIso c = true) :
    ∃ o, buildThreadInfo parseIso url c = Except.ok o := by
  cases hl : truthy c.latest_link with
  | false => exact ⟨none, by simp [buildThreadInfo, hl]⟩
  | true =>
      cases hds : c.thread_date_str with
      | none =>
          exact ⟨some { url := urljoin url (c.latest_link.getD ""),
                        thread_title := c.thread_title,
                        thread_date := none, timestamp := none },
                 by simp [buildThreadInfo, hl, hds]⟩
      | some s =>
          have h' : s.isEmpty || (parseIso (pyReplaceZ s)).isSome = true := by
            simpa [datesOk, hds] using h
          cases he : s.isEmpty with
          | true =>
              exact ⟨some { url := urljoin url (c.latest_link.getD ""),
                            thread_title := c.thread_title,
                            thread_date := some s, timestamp := none },
                     by simp [buildThreadInfo, hl, hds, he]⟩
          | false =>
              rw [he, Bool.false_or] at h'
              cases hp : parseIso (pyReplaceZ s) with
              | none => rw [hp] at h'; simp at h'
              | some t =>
                  exact ⟨some { url := urljoin url (c.latest_link.getD ""),
                                thread_title := c.thread_title,
                                thread_date := some s, timestamp := some t },
                         by simp [buildThreadInfo, hl, hds, he, hp]⟩

theorem collectThreads_ok (parseIso : IsoParser) (url : String)
    (cs : List ThreadContainer) (h : ∀ c ∈ cs, datesOk parseIso c = true) :
    ∃ threads, collectThreads parseIso url cs = Except.ok threads := by
  induction cs with
  | nil => exact ⟨[], rfl⟩
  | cons c rest ih =>
      obtain ⟨o, ho⟩ := buildThreadInfo_ok parseIso url c (h c (List.mem_cons_self c rest))
      obtain ⟨tl, htl⟩ := ih (fun c' hc' => h c' (List.mem_cons_of_mem c hc'))
      cases o with
      | none => exact ⟨tl, by rw [collectThreads, ho, htl]; rfl⟩
      | some t => exact ⟨t :: tl, by rw [collectThreads, ho, htl]; rfl⟩

/-- Concrete `fromisoformat` instance for the spec's ordering example:
`T1` parses to `10` (10:00), `T2` to `12` (12:00), nothing else parses. -/
def exampleIso : IsoParser := fun s =>
  if s = "2024-01-01T10:00:00+00:00" then some 10
  else if s = "2024-01-01T12:00:00+00:00" then some 12
  else none

/-- Listing entry `T1`, thread-start timestamp 10:00. -/
def exampleC1 : ThreadContainer :=
  { latest_link := some "/t/first.1/latest", thread_title := some "T1",
    thread_date_str := some "2024-01-01T10:00:00Z" }

/-- Listing entry `T2`, thread-start timestamp 12:00. -/
def exampleC2 : ThreadContainer :=
  { latest_link := some "/t/second.2/latest", thread_title := some "T2",
    thread_date_str := some "2024-01-01T12:00:00Z" }

/-- Listing entry `T3`, thread-start timestamp absent. -/
def exampleC3 : ThreadContainer :=
  { latest_link := some "/t/third.3/latest", thread_title := some "T3",
    thread_date_str := none }

/-- Listing entry `T3'`: a present but unparseable thread-start date. -/
def exampleC3bad : ThreadContainer :=
  { latest_link := some "/t/third.3/latest", thread_title := some "T3",
    thread_date_str := some "not-a-date" }

/-- The `thread_info` discovered for `T1`. -/
def exampleT1 : ThreadInfo :=
  { url := "https://voz.vn/t/first.1/latest", thread_title := some "T1",
    thread_date := some "2024-01-01T10:00:00Z", timestamp := some 10 }

/-- The `thread_info` discovered for `T2`. -/
def exampleT2 : ThreadInfo :=
  { url := "https://voz.vn/t/second.2/latest", thread_title := some "T2",
    thread_date := some "2024-01-01T12:00:00Z", timestamp := some 12 }

/-- The `thread_info` discovered for `T3`. -/
def exampleT3 : ThreadInfo :=
  { url := "https://voz.vn/t/third.3/latest", thread_title := some "T3",
    thread_date := none, timestamp := none }

/-- C4 (amended). Whenever every container's date string is absent, empty,
or parseable, discovery emits all discovered threads (a permutation of the
listing's entries with a `/latest` link) sorted by parsed timestamp
descending, where an absent timestamp is assigned `datetime.min`, the
minimum possible key, and hence sorts last; for the entries
`[T1 = 10:00, T2 = 12:00, T3 = timestamp-absent]` the emitted order is
`[T2, T1, T3]`. (A present but unparseable date string instead raises
`ValueError`, see the counterexample theorem.) -/
theorem spider_parse_sorts_descending_absent_last :
    (∀ (parseIso : IsoParser) (response_url : String) (cs : List ThreadContainer),
      (∀ c ∈ cs, datesOk parseIso c = true) →
      ∃ threads ts,
        collectThreads parseIso response_url cs = Except.ok threads ∧
        spider_parse parseIso response_url cs = Except.ok ts ∧
        ts ~ threads ∧
        ts.Pairwise (fun a b => tkey b.timestamp ≤ tkey a.timestamp)) ∧
    (∀ t : Option Nat, tkey none ≤ tkey t) ∧
    spider_parse exampleIso "https://voz.vn/whats-new" [exampleC1, exampleC2, exampleC3]
      = Except.ok [exampleT2, exampleT1, exampleT3] := by
  refine ⟨?_, fun t => Nat.zero_le _, rfl⟩
  intro parseIso response_url cs h
  obtain ⟨threads, hthreads⟩ := collectThreads_ok parseIso response_url cs h
  refine ⟨threads, sortDesc (fun t => tkey t.timestamp) threads, hthreads, ?_, ?_, ?_⟩
  · simp [spider_parse, hthreads]
  · exact sortDesc_perm _ threads
  · exact sortDesc_pairwise _ threads

/-- C4 witness: the general part of the theorem applied to the concrete
example listing. -/
theorem spider_parse_sorts_witness :
    ∃ threads ts,
      collectThreads exampleIso "https://voz.vn/whats-new"
          [exampleC1, exampleC2, exampleC3] = Except.ok threads ∧
      spider_parse exampleIso "https://voz.vn/whats-new"
          [exampleC1, exampleC2, exampleC3] = Except.ok ts ∧
      ts ~ threads ∧
      ts.Pairwise (fun a b => tkey b.timestamp ≤ tkey a.timestamp) :=
  spider_parse_sorts_descending_absent_last.1 exampleIso "https://voz.vn/whats-new"
    [exampleC1, exampleC2, exampleC3] (by decide)

/-- C4 counterexample to the claim as stated: an entry whose thread-start
date is present but unparseable is not treated as the minimum timestamp —
`datetime.fromisoformat` raises `ValueError` and discovery aborts instead
of emitting `[T2, T1, T3']`. -/
theorem spider_parse_unparseable_timestamp_aborts :
    spider_parse exampleIso "https://voz.vn/whats-new"
        [exampleC1, exampleC2, exampleC3bad]
      = Except.error "ValueError: Invalid isoformat string" := rfl

/-! ## Reply Extractor (`demospider.py`, `parse_latest_message`) -/

/-- The message-body DOM (the `div.bbWrapper` subtree): text nodes and
elements with a tag and children. -/
inductive Html where
  | text : String → Html
  | elem : String → List Html → Html
deriving Repr

mutual
/-- The text nodes selected by the XPath
`.//text()[not(ancestor::blockquote)]`, in document order: every text
node of the subtree except those with a `blockquote` ancestor. -/
def collectTexts : Html → List String
  | Html.text s => [s]
  | Html.elem tag children =>
      if tag = "blockquote" then [] else collectTextsList children

/-- `collectTexts` over a child list. -/
def collectTextsList : List Html → List String
  | [] => []
  | h :: t => collectTexts h ++ collectTextsList t
end

mutual
/-- The subtree with every quoted-content (`blockquote`) block removed;
`none` when the whole node is quoted content. Specification-side notion
used to state that extraction excludes quoted text entirely. -/
def pruneQuotes : Html → Option Html
  | Html.text s => some (Html.text s)
  | Html.elem tag children =>
      if tag = "blockquote" then none
      else some (Html.elem tag (pruneQuotesList children))

/-- `pruneQuotes` over a child list, dropping removed nodes. -/
def pruneQuotesList : List Html → List Html
  | [] => []
  | h :: t =>
      match pruneQuotes h with
      | none => pruneQuotesList t
      | some h' => h' :: pruneQuotesList t
end

mutual
/-- All text nodes of a subtree, in document order. -/
def allTexts : Html → List String
  | Html.text s => [s]
  | Html.elem _ children => allTextsList children

/-- `allTexts` over a child list. -/
def allTextsList : List Html → List String
  | [] => []
  | h :: t => allTexts h ++ allTextsList t
end

/-- Embedding of demospider.py line 81:
`' '.join([text.strip() for text in message_content if text.strip()])` —
keep the fragments whose stripped form is non-empty, strip each, and join
with single spaces. -/
def joinFragments (fragments : List String) : String :=
  String.intercalate " "
    ((fragments.filter (fun t => !(pyStrip t).isEmpty)).map pyStrip)

/-- Embedding of demospider.py lines 80–81: the message content extracted
from the body subtree. -/
def extract_message_content (body : Html) : String :=
  joinFragments (collectTexts body)

/-- One `article.message--post` container on a thread page, reduced to the
selector results `parse_latest_message` reads from it. -/
structure MessageContainer where
  body : Html
  username : Option String
  timestamp : Option String

/-- The dictionary yielded by `parse_latest_message`. -/
structure ScrapedItem where
  id : Option String
  thread_title : Option String
  thread_date : Option String
  latest_poster : Option String
  latest_post_time : Option String
  message_content : String
  thread_url : String
deriving Repr, DecidableEq

/-- Embedding of `DemospiderSpider.parse_latest_message` (demospider.py
lines 72–100). Indexing `[-1]` into an empty container list raises
`IndexError`; otherwise the last container is selected (the
`if message_container:` test is always true of a selector object) and
exactly one item is yielded — its `id` is `generate_item_id(response.url,
timestamp)`, which may be `None`; the item is emitted regardless. -/
def parse_latest_message (containers : List MessageContainer) (info : ThreadInfo)
    (response_url : String) : Except String (List ScrapedItem) :=
  match containers.getLast? with
  | none => Except.error "IndexError: list index out of range"
  | some message_container =>
      Except.ok [{ id := generate_item_id response_url message_container.timestamp,
                   thread_title := info.thread_title,
                   thread_date := info.thread_date,
                   latest_poster := message_container.username,
                   latest_post_time := message_container.timestamp,
                   message_content := extract_message_content message_container.body,
                   thread_url := response_url }]

/-! ### Claim C7 -/

mutual
theorem collectTexts_eq_pruned : ∀ t : Html,
    collectTexts t = (match pruneQuotes t with
                      | none => []
                      | some t' => allTexts t')
  | Html.text s => rfl
  | Html.elem tag children => by
      by_cases h : tag = "blockquote"
      · simp [collectTexts, pruneQuotes, h]
      · simp [collectTexts, pruneQuotes, h, allTexts,
              collectTextsList_eq_pruned children]

theorem collectTextsList_eq_pruned : ∀ l : List Html,
    collectTextsList l = allTextsList (pruneQuotesList l)
  | [] => rfl
  | h :: t => by
      rw [collectTextsList, collectTexts_eq_pruned h, pruneQuotesList]
      cases hp : pruneQuotes h with
      | none => simp [collectTextsList_eq_pruned t]
      | some h' => simp [allTextsList, collectTextsList_eq_pruned t]
end

/-- The spec's quote-stripping example: a quoted block followed by
original text. -/
def exampleBody : Html :=
  Html.elem "div"
    [Html.elem "blockquote" [Html.text "quoted stuff", Html.elem "div" [Html.text " more quoted "]],
     Html.text "  original ",
     Html.text "text \n"]

/-- C7. The extracted message content is computed from exactly the text
nodes that have no quoted-content ancestor (equivalently: the text nodes
that survive removing every `blockquote` subtree), each trimmed, the
whitespace-only fragments discarded, joined with single spaces; in the
example of a quoted block followed by original text, the quoted block's
text is excluded entirely. -/
theorem message_content_excludes_quoted :
    (∀ body : Html,
      collectTexts body = (match pruneQuotes body with
                           | none => []
                           | some b => allTexts b)) ∧
    (∀ body : Html,
      extract_message_content body
        = joinFragments (match pruneQuotes body with
                         | none => []
                         | some b => allTexts b)) ∧
    extract_message_content exampleBody = "original text" := by
  refine ⟨collectTexts_eq_pruned, ?_, ?_⟩
  · intro body
    rw [extract_message_content, collectTexts_eq_pruned body]
  · rfl

/-! ### Claim C3 -/

/-- A concrete last message container with a present post timestamp. -/
def exampleMsgContainer : MessageContainer :=
  { body := Html.text "hello world",
    username := some "alice",
    timestamp := some "2024-01-01T10:00:00+00:00" }

/-- The item the extractor emits for `exampleMsgContainer` on a thread
page whose URL path (`/whats-new`) yields no thread ID. -/
def exampleEmittedItem : ScrapedItem :=
  { id := none,
    thread_title := some "T3",
    thread_date := none,
    latest_poster := some "alice",
    latest_post_time := some "2024-01-01T10:00:00+00:00",
    message_content := "hello world",
    thread_url := "https://voz.vn/whats-new" }

/-- C3 counterexample to the claim as stated: on a page from which no ID
can be derived (the URL path has no dot, so the ID Generator returns
`None`), the Reply Extractor does not drop the item — it still emits
exactly one item, with `id = None`, which is forwarded downstream. -/
theorem parse_latest_message_missing_id_still_emits :
    parse_latest_message [exampleMsgContainer] exampleT3 "https://voz.vn/whats-new"
        = Except.ok [exampleEmittedItem] ∧
    exampleEmittedItem.id = none ∧
    Except.ok [exampleEmittedItem]
      ≠ (Except.error "dropped" : Except String (List ScrapedItem)) ∧
    ([exampleEmittedItem] : List ScrapedItem) ≠ [] := by
  refine ⟨?_, rfl, by simp, by simp⟩
  rfl

/-- C3 (amended). Whenever the thread page has at least one message
container, the Reply Extractor emits exactly one item, built from the last
container; its `id` is whatever the ID Generator returns — including
`None` when no ID can be derived — so an item with an underivable ID is
still forwarded downstream rather than dropped. -/
theorem parse_latest_message_emits_item_with_generated_id :
    ∀ (containers : List MessageContainer) (info : ThreadInfo)
      (response_url : String) (c : MessageContainer),
      containers.getLast? = some c →
      parse_latest_message containers info response_url
        = Except.ok [{ id := generate_item_id response_url c.timestamp,
                       thread_title := info.thread_title,
                       thread_date := info.thread_date,
                       latest_poster := c.username,
                       latest_post_time := c.timestamp,
                       message_content := extract_message_content c.body,
                       thread_url := response_url }] := by
  intro containers info response_url c h
  rw [parse_latest_message, h]

/-- C3 witness: the amended theorem applied to the concrete one-container
page with an underivable ID. -/
theorem parse_latest_message_emits_witness :
    parse_latest_message [exampleMsgContainer] exampleT3 "https://voz.vn/whats-new"
      = Except.ok [{ id := generate_item_id "https://voz.vn/whats-new"
                       exampleMsgContainer.timestamp,
                     thread_title := exampleT3.thread_title,
                     thread_date := exampleT3.thread_date,
                     latest_poster := exampleMsgContainer.username,
                     latest_post_time := exampleMsgContainer.timestamp,
                     message_content := extract_message_content exampleMsgContainer.body,
                     thread_url := "https://voz.vn/whats-new" }] :=
  parse_latest_message_emits_item_with_generated_id [exampleMsgContainer] exampleT3
    "https://voz.vn/whats-new" exampleMsgContainer rfl

/-! ## Storage Gateway (`pipelines.py`, `SentimentAnalysisPipeline`) -/

/-- A row of the `voz_messages` table (columns as in the INSERT of
pipelines.py lines 76–89). -/
structure MessageRow where
  id : String
  thread_title : String
  thread_date : String
  latest_poster : String
  latest_post_time : String
  message_content : String
  thread_url : String
  positive_count : Nat
  negative_count : Nat
  neutral_count : Nat
  analyzed_at : String
deriving Repr, DecidableEq

/-- Embedding of the SQL statement of pipelines.py lines 76–96:
`INSERT INTO voz_messages (...) VALUES (...) ON CONFLICT (id) DO UPDATE
SET positive_count = EXCLUDED.positive_count, negative_count = ...,
neutral_count = ..., analyzed_at = EXCLUDED.analyzed_at`. The table is a
list of rows with primary key `id`: no conflict appends the full row; a
conflict updates only the three count columns and `analyzed_at` of the
conflicting row. -/
def voz_upsert (table : List MessageRow) (r : MessageRow) : List MessageRow :=
  if table.any (fun x => x.id == r.id) then
    table.map (fun x =>
      if x.id = r.id then
        { x with positive_count := r.positive_count,
                 negative_count := r.negative_count,
                 neutral_count := r.neutral_count,
                 analyzed_at := r.analyzed_at }
      else x)
  else table ++ [r]

/-! ### Claim C5 -/

/-- C5. Upserting `r1` into a table that does not yet contain its `id`,
then upserting `r2` with the same `id`: the stored row keeps every content
field (`thread_title`, `thread_date`, `latest_poster`, `latest_post_time`,
`message_content`, `thread_url`) from the first write and takes exactly
`positive_count`, `negative_count`, `neutral_count` and `analyzed_at` from
the second; all other rows are untouched. -/
theorem upsert_updates_only_counts_and_analyzed_at :
    ∀ (table : List MessageRow) (r1 r2 : MessageRow),
      r2.id = r1.id →
      (∀ x ∈ table, x.id ≠ r1.id) →
      voz_upsert (voz_upsert table r1) r2
        = table ++ [{ r1 with positive_count := r2.positive_count,
                              negative_count := r2.negative_count,
                              neutral_count := r2.neutral_count,
                              analyzed_at := r2.analyzed_at }] := by
  intro table r1 r2 hid hfresh
  have h1 : table.any (fun x => x.id == r1.id) = false := by
    rw [List.any_eq_false]
    intro x hx
    simpa using hfresh x hx
  have step1 : voz_upsert table r1 = table ++ [r1] := by
    simp [voz_upsert, h1]
  rw [step1]
  have h2 : (table ++ [r1]).any (fun x => x.id == r2.id) = true := by
    simp [hid]
  simp only [voz_upsert, h2, if_pos, List.map_append]
  have hmap : table.map (fun x =>
      if x.id = r2.id then
        { x with positive_count := r2.positive_count,
                 negative_count := r2.negative_count,
                 neutral_count := r2.neutral_count,
                 analyzed_at := r2.analyzed_at }
      else x) = table := by
    have : ∀ x ∈ table, (if x.id = r2.id then
        { x with positive_count := r2.positive_count,
                 negative_count := r2.negative_count,
                 neutral_count := r2.neutral_count,
                 analyzed_at := r2.analyzed_at }
      else x) = x := by
      intro x hx
      rw [if_neg]
      rw [hid]
      exact hfresh x hx
    rw [List.map_congr_left this]
    exact List.map_id table
  rw [hmap]
  simp [hid]

/-- A first write: positive sentiment, original content fields. -/
def exampleRow1 : MessageRow :=
  { id := "9521792007fa85616fdc486aa55659eb",
    thread_title := "First title",
    thread_date := "2024-01-01T09:00:00Z",
    latest_poster := "alice",
    latest_post_time := "2024-01-01T10:00:00+00:00",
    message_content := "hello world",
    thread_url := "https://voz.vn/t/first.1/latest",
    positive_count := 1, negative_count := 0, neutral_count := 0,
    analyzed_at := "2024-01-02T00:00:00" }

/-- A re-crawl of the same `id` with different sentiment counts and
(deliberately) different content fields, which the upsert must ignore. -/
def exampleRow2 : MessageRow :=
  { id := "9521792007fa85616fdc486aa55659eb",
    thread_title := "Changed title",
    thread_date := "2024-02-02T09:00:00Z",
    latest_poster := "bob",
    latest_post_time := "2024-02-02T10:00:00+00:00",
    message_content := "changed content",
    thread_url := "https://voz.vn/t/changed.9/latest",
    positive_count := 0, negative_count := 1, neutral_count := 0,
    analyzed_at := "2024-02-03T00:00:00" }

/-- C5 witness: the two concrete writes on the empty table. -/
theorem upsert_updates_only_counts_witness :
    voz_upsert (voz_upsert [] exampleRow1) exampleRow2
      = [{ exampleRow1 with positive_count := exampleRow2.positive_count,
                            negative_count := exampleRow2.negative_count,
                            neutral_count := exampleRow2.neutral_count,
                            analyzed_at := exampleRow2.analyzed_at }] :=
  upsert_updates_only_counts_and_analyzed_at [] exampleRow1 exampleRow2 rfl
    (by intro x hx; cases hx)

/-! ### Claim C9 -/

/-- Embedding of `SentimentAnalysisPipeline.process_item` (pipelines.py
lines 73–105). The write runs inside a transaction against the committed
state `db`; the external outcome `fail` says whether `execute`/`commit`
raised (connection loss, constraint violation, transaction error). On
success the upsert is committed and a success line is logged; on failure
`conn.rollback()` discards the transaction — the committed state is
unchanged — and the error is logged with the offending item's ID. Either
way the item is returned, so the pipeline continues with the next item. -/
def sa_process_item (db : List MessageRow) (item : MessageRow) (fail : Bool) :
    List MessageRow × String × MessageRow :=
  if fail then
    (db, "Error storing item " ++ item.id ++ " in database", item)
  else
    (voz_upsert db item, "Successfully stored item " ++ item.id ++ " in database", item)

/-- The storage stage run over a whole crawl: each item is written in
order, with its own failure outcome; the stage never aborts. -/
def sa_process_all (db : List MessageRow) :
    List (MessageRow × Bool) → List MessageRow × List String
  | [] => (db, [])
  | (item, fail) :: rest =>
      let step := sa_process_item db item fail
      let next := sa_process_all step.1 rest
      (next.1, step.2.1 :: next.2)

/-- C9. On every storage failure the transaction is rolled back (the
committed table is exactly what it was), the error is logged with the
offending item's ID, and the call returns the item normally; a run over a
list of items always produces one log line per item (no pipeline-wide
abort), and a failing item leaves the table unchanged for the processing
of the next items. -/
theorem storage_failure_rolls_back_and_continues :
    (∀ (db : List MessageRow) (item : MessageRow),
      sa_process_item db item true
        = (db, "Error storing item " ++ item.id ++ " in database", item)) ∧
    (∀ (db : List MessageRow) (items : List (MessageRow × Bool)),
      (sa_process_all db items).2.length = items.length) ∧
    (∀ (db : List MessageRow) (item : MessageRow) (rest : List (MessageRow × Bool)),
      sa_process_all db ((item, true) :: rest)
        = ((sa_process_all db rest).1,
           ("Error storing item " ++ item.id ++ " in database")
             :: (sa_process_all db rest).2)) := by
  refine ⟨fun db item => rfl, ?_, fun db item rest => rfl⟩
  intro db items
  induction items generalizing db with
  | nil => rfl
  | cons p rest ih =>
      obtain ⟨item, fail⟩ := p
      simp [sa_process_all, ih]

/-! ## Analytics Service (`main.py`, `get_messages_with_sentiment` /
`get_messages`) -/

/-- A `voz_messages` row as the query layer sees it. Timestamps are
encoded as `Nat` so that `ORDER BY analyzed_at DESC` is a comparison. The
`thread_id` column appears here because both the page query and the count
query of `get_messages_with_sentiment` filter on it (the table's DDL is
not part of the repository; the queries require the column). -/
structure ApiMessageRow where
  id : String
  thread_title : String
  thread_date : String
  message_content : String
  latest_poster : String
  latest_post_time : String
  thread_url : String
  thread_id : String
  positive_count : Nat
  negative_count : Nat
  neutral_count : Nat
  analyzed_at : Nat
deriving Repr, DecidableEq

/-- The `CASE WHEN positive_count = 1 ... END as sentiment` expression of
main.py lines 136–140. -/
def rowSentiment (r : ApiMessageRow) : String :=
  if r.positive_count = 1 then "positive"
  else if r.negative_count = 1 then "negative"
  else "neutral"

/-- One row of the SELECT's result set (content columns plus the derived
`sentiment` label). -/
structure ApiMessage where
  id : String
  thread_title : String
  thread_date : String
  message_content : String
  latest_poster : String
  latest_post_time : String
  thread_url : String
  sentiment : String
  analyzed_at : Nat
deriving Repr, DecidableEq

/-- Projection of a table row to a result row. -/
def toApiMessage (r : ApiMessageRow) : ApiMessage :=
  { id := r.id, thread_title := r.thread_title, thread_date := r.thread_date,
    message_content := r.message_content, latest_poster := r.latest_poster,
    latest_post_time := r.latest_post_time, thread_url := r.thread_url,
    sentiment := rowSentiment r, analyzed_at := r.analyzed_at }

/-- The response dictionary of `get_messages_with_sentiment`. -/
structure MessagesPage where
  messages : List ApiMessage
  total : Nat
  limit : Nat
  offset : Nat
deriving Repr, DecidableEq

/-- The `WHERE` clause: `AND thread_id = %s` is appended only when the
`thread_id` parameter is truthy (`if thread_id:`), in both the page query
and the count query. -/
def matchesFilter (thread_id : Option String) (r : ApiMessageRow) : Bool :=
  if truthy thread_id then r.thread_id == thread_id.getD "" else true

/-- Embedding of `get_messages_with_sentiment` (main.py lines 123–179):
the page query filters, orders by `analyzed_at DESC`, and applies
`LIMIT %s OFFSET %s`; the count query re-runs the same filter without
limit or offset and returns the full matching count as `total`. -/
def get_messages_with_sentiment (table : List ApiMessageRow)
    (limit offset : Nat) (thread_id : Option String) : MessagesPage :=
  let ordered := sortDesc (fun r => r.analyzed_at) (table.filter (matchesFilter thread_id))
  let messages := ((ordered.drop offset).take limit).map toApiMessage
  let total_count := (table.filter (matchesFilter thread_id)).length
  { messages := messages, total := total_count, limit := limit, offset := offset }

/-- Embedding of the `GET /messages/sentiment` endpoint (main.py lines
203–211): FastAPI accepts the request only when
`limit = Query(10, ge=1, le=100)` and `offset = Query(0, ge=0)` validate,
and then calls `get_messages_with_sentiment`; out-of-range parameters are
rejected (`none`). -/
def get_messages (table : List ApiMessageRow) (limit offset : Int)
    (thread_id : Option String) : Option MessagesPage :=
  if 1 ≤ limit ∧ limit ≤ 100 ∧ 0 ≤ offset then
    some (get_messages_with_sentiment table limit.toNat offset.toNat thread_id)
  else none

/-! ### Claim C8 -/

/-- C8. For every stored message set and every accepted request: the
accepted `limit` lies in `[1, 100]` and the accepted `offset` is
non-negative; the returned messages list has at most `limit` rows and is
ordered by `analyzed_at` descending; and `total` is the full count of rows
matching the same filter, computed without `limit` or `offset`. -/
theorem get_messages_page_spec :
    ∀ (table : List ApiMessageRow) (limit offset : Int)
      (thread_id : Option String) (page : MessagesPage),
      get_messages table limit offset thread_id = some page →
      (1 ≤ limit ∧ limit ≤ 100 ∧ 0 ≤ offset) ∧
      page.messages.length ≤ limit.toNat ∧
      page.messages.Pairwise (fun a b => b.analyzed_at ≤ a.analyzed_at) ∧
      page.total = (table.filter (matchesFilter thread_id)).length := by
  intro table limit offset thread_id page h
  rw [get_messages] at h
  by_cases hc : 1 ≤ limit ∧ limit ≤ 100 ∧ 0 ≤ offset
  · rw [if_pos hc] at h
    obtain rfl : get_messages_with_sentiment table limit.toNat offset.toNat thread_id
        = page := Option.some.inj h
    refine ⟨hc, ?_, ?_, rfl⟩
    · calc ((((sortDesc (fun r => r.analyzed_at)
              (table.filter (matchesFilter thread_id))).drop offset.toNat).take
                limit.toNat).map toApiMessage).length
          = (((sortDesc (fun r => r.analyzed_at)
              (table.filter (matchesFilter thread_id))).drop offset.toNat).take
                limit.toNat).length := List.length_map _ _
        _ ≤ limit.toNat := List.length_take_le _ _
    · have hp : List.Pairwise (fun (a b : ApiMessageRow) => b.analyzed_at ≤ a.analyzed_at)
          (((sortDesc (fun r => r.analyzed_at)
            (table.filter (matchesFilter thread_id))).drop offset.toNat).take
              limit.toNat) := by
        exact List.Pairwise.sublist
          ((List.take_sublist _ _).trans (List.drop_sublist _ _))
          (sortDesc_pairwise (fun r => r.analyzed_at)
            (table.filter (matchesFilter thread_id)))
      exact List.pairwise_map.mpr hp
  · rw [if_neg hc] at h
    cases h

/-- Three stored rows with distinct `analyzed_at` timestamps. -/
def exampleApiTable : List ApiMessageRow :=
  [{ id := "a", thread_title := "A", thread_date := "d1", message_content := "ma",
     latest_poster := "p1", latest_post_time := "t1", thread_url := "u1",
     thread_id := "1", positive_count := 1, negative_count := 0, neutral_count := 0,
     analyzed_at := 5 },
   { id := "b", thread_title := "B", thread_date := "d2", message_content := "mb",
     latest_poster := "p2", latest_post_time := "t2", thread_url := "u2",
     thread_id := "2", positive_count := 0, negative_count := 1, neutral_count := 0,
     analyzed_at := 9 },
   { id := "c", thread_title := "C", thread_date := "d3", message_content := "mc",
     latest_poster := "p3", latest_post_time := "t3", thread_url := "u3",
     thread_id := "1", positive_count := 0, negative_count := 0, neutral_count := 1,
     analyzed_at := 7 }]

/-- C8 witness: the spec's `getMessagesPage(limit=10, offset=0)` request
on the concrete table, no filter. -/
theorem get_messages_page_witness :
    ((1:Int) ≤ 10 ∧ (10:Int) ≤ 100 ∧ (0:Int) ≤ 0) ∧
    (get_messages_with_sentiment exampleApiTable 10 0 none).messages.length
      ≤ (10:Int).toNat ∧
    (get_messages_with_sentiment exampleApiTable 10 0 none).messages.Pairwise
      (fun a b => b.analyzed_at ≤ a.analyzed_at) ∧
    (get_messages_with_sentiment exampleApiTable 10 0 none).total
      = (exampleApiTable.filter (matchesFilter none)).length :=
  get_messages_page_spec exampleApiTable 10 0 none
    (get_messages_with_sentiment exampleApiTable 10 0 none) (by rfl)

end Voz
